import Mathlib

/-!
Verification of the Census Trade API query tool
(`Census_API_Program.py` driving `trade_api_functions.py`).

The Python source is shallowly embedded below.  Parameter dictionaries
are modelled as insertion-ordered association lists (`Params`), matching
Python `dict` semantics: assigning to an existing key overwrites in
place, assigning to a fresh key appends.  HTTP traffic is modelled by an
explicit `respond : QueryReq → ApiResponse` oracle; `make_call` records
every request it issues and every error line it prints, so that the
theorems can speak about the batch of requests, the log and the
accumulated table.
-/

namespace CensusTrade

/-- Parameter dictionary of a request, as an insertion-ordered
association list (Python `dict` of `str` keys and values). -/
abbrev Params := List (String × String)

/-- Python `d[k] = v` on a dict: overwrite in place if the key exists,
otherwise append at the end. -/
def paramInsert (ps : Params) (k v : String) : Params :=
  if ps.any (fun p => p.1 = k) then
    ps.map (fun p => if p.1 = k then (k, v) else p)
  else
    ps ++ [(k, v)]

/-- Python `d[k]` lookup returning the value of the first (unique)
entry with key `k`. -/
def pyGet (ps : Params) (k : String) : Option String :=
  (ps.find? (fun p => p.1 = k)).map (fun p => p.2)

/-- Python `k in d`. -/
def hasKey (ps : Params) (k : String) : Bool :=
  ps.any (fun p => p.1 = k)

/-! ## Endpoint selection (`determine_trade_type`, `determine_base_url`,
`determine_base_params`, trade_api_functions.py lines 208-309) -/

/-- Embedding of `determine_trade_type` (lines 208-230). -/
def determine_trade_type (imp_exp endpoint : String) : String :=
  if imp_exp = "imports" ∧ endpoint = "hs" then "imp_hs"
  else if imp_exp = "imports" ∧ endpoint = "port" then "imp_port"
  else if imp_exp = "exports" ∧ endpoint = "hs" then "exp_hs"
  else if imp_exp = "exports" ∧ endpoint = "port" then "exp_port"
  else if imp_exp = "imports" ∧ endpoint = "state" then "imp_st"
  else "exp_st"

/-- Embedding of `determine_base_url` (lines 236-264). -/
def determine_base_url (imp_exp endpoint : String) : String :=
  if imp_exp = "imports" ∧ endpoint = "hs" then
    "https://api.census.gov/data/timeseries/intltrade/imports/hs"
  else if imp_exp = "imports" ∧ endpoint = "port" then
    "https://api.census.gov/data/timeseries/intltrade/imports/porths"
  else if imp_exp = "exports" ∧ endpoint = "hs" then
    "https://api.census.gov/data/timeseries/intltrade/exports/hs"
  else if imp_exp = "exports" ∧ endpoint = "port" then
    "https://api.census.gov/data/timeseries/intltrade/exports/porths"
  else if imp_exp = "imports" ∧ endpoint = "state" then
    "https://api.census.gov/data/timeseries/intltrade/imports/statehs"
  else
    "https://api.census.gov/data/timeseries/intltrade/exports/statehs"

/-- Embedding of `determine_base_params` (lines 270-309); the `get`
strings are copied verbatim from the source. -/
def determine_base_params (trade_type : String) : Params :=
  if trade_type = "imp_hs" then
    [("get", "I_COMMODITY,I_COMMODITY_LDESC,CTY_CODE,CTY_NAME,DISTRICT,DIST_NAME,UNIT_QY1,UNIT_QY2,GEN_VAL_YR,GEN_QY1_YR,GEN_QY1_YR_FLAG,GEN_QY2_YR,GEN_QY2_YR_FLAG,GEN_CHA_YR,GEN_CIF_YR,CC_YR,RP,CAL_DUT_YR,DUT_VAL_YR,CNT_CHA_YR,CNT_VAL_YR,CNT_WGT_YR,VES_WGT_YR,VES_VAL_YR,VES_CHA_YR,AIR_WGT_YR,AIR_VAL_YR,AIR_CHA_YR"),
     ("SUMMARY_LVL", "DET")]
  else if trade_type = "imp_port" then
    [("get", "I_COMMODITY,I_COMMODITY_LDESC,PORT,PORT_NAME,CTY_CODE,CTY_NAME,GEN_VAL_YR,CNT_VAL_YR,CNT_WGT_YR,VES_VAL_YR,VES_WGT_YR,AIR_VAL_YR,AIR_WGT_YR"),
     ("SUMMARY_LVL", "DET")]
  else if trade_type = "exp_hs" then
    [("get", "E_COMMODITY,E_COMMODITY_LDESC,DF,CTY_CODE,CTY_NAME,DISTRICT,DIST_NAME,UNIT_QY1,UNIT_QY2,ALL_VAL_YR,QTY_1_YR,QTY_1_YR_FLAG,QTY_2_YR,QTY_2_YR_FLAG,CNT_VAL_YR,CNT_WGT_YR,CC_YR,AIR_VAL_YR,AIR_WGT_YR,VES_VAL_YR,VES_WGT_YR"),
     ("SUMMARY_LVL", "DET")]
  else if trade_type = "exp_port" then
    [("get", "E_COMMODITY,E_COMMODITY_LDESC,PORT,PORT_NAME,CTY_CODE,CTY_NAME,ALL_VAL_YR,CNT_VAL_YR,CNT_WGT_YR,VES_VAL_YR,VES_WGT_YR,AIR_VAL_YR,AIR_WGT_YR"),
     ("SUMMARY_LVL", "DET")]
  else if trade_type = "imp_st" then
    [("get", "I_COMMODITY,I_COMMODITY_LDESC,STATE,CTY_NAME,CTY_CODE,GEN_VAL_YR,VES_VAL_YR,VES_WGT_YR,CNT_VAL_YR,CNT_WGT_YR,AIR_VAL_YR,AIR_WGT_YR"),
     ("SUMMARY_LVL", "DET")]
  else
    [("get", "E_COMMODITY,E_COMMODITY_LDESC,STATE,CTY_NAME,CTY_CODE,ALL_VAL_YR,VES_VAL_YR,VES_WGT_YR,CNT_VAL_YR,CNT_WGT_YR,AIR_VAL_YR,AIR_WGT_YR"),
     ("SUMMARY_LVL", "DET")]

/-- Split a character list at every occurrence of `sep` (the splitter
underlying Python `str.split`). -/
def splitChar (sep : Char) : List Char → List (List Char)
  | [] => [[]]
  | c :: rest =>
    if c = sep then [] :: splitChar sep rest
    else
      match splitChar sep rest with
      | [] => [[c]]
      | h :: t => (c :: h) :: t

/-- Requested output columns of a trade type: the comma-separated
components of the `get` entry of `determine_base_params`. -/
def requested_fields (trade_type : String) : List String :=
  match pyGet (determine_base_params trade_type) "get" with
  | some g => (splitChar ',' g.data).map (fun l => String.mk l)
  | none => []

/-- The six (direction, endpoint) input pairs of the selector. -/
def pairs6 : List (String × String) :=
  [("imports", "hs"), ("imports", "port"), ("imports", "state"),
   ("exports", "hs"), ("exports", "port"), ("exports", "state")]

/-! ## Request batching (`make_call`, trade_api_functions.py lines 754-813) -/

/-- One HTTP GET issued by `make_call`: the base URL and the query
parameters (`req.get(base_url, params=temp_params)`, line 800);
together these form the full request URL. -/
structure QueryReq where
  url : String
  params : Params
deriving DecidableEq, Repr

/-- Response of the remote API for one request: HTTP status and, for
the JSON body `[header, row, ...]`, the data rows. -/
structure ApiResponse where
  status : Nat
  rows : List (List String)
deriving DecidableEq, Repr

/-- The axis values a single request of the batch was built from:
commodity code, year, country code, district code, port code and state
value (each `none` when the axis is unset). -/
structure Combo where
  code : Option String
  year : Nat
  cty : Option String
  dist : Option String
  port : Option String
  state : Option String
deriving DecidableEq, Repr

/-- One failure diagnostic printed by `make_call` (lines 810-811): the
commodity code and status code of the failed request together with the
full request URL. -/
structure LogEntry where
  code : Option String
  status : Nat
  req : QueryReq
deriving DecidableEq, Repr

/-- State threaded through the `make_call` loops: the growing
`all_data` table, the `data` result variable, plus the instrumentation
recording every issued request (tagged with its axis combination) and
every printed failure line. -/
structure CallAcc where
  all_data : List (List String)
  data : Option (List (List String))
  issued : List (Combo × QueryReq)
  log : List LogEntry
deriving DecidableEq, Repr

/-- Python `cty_codes if cty_codes else [None]` (lines 787-789): a
missing or empty code list collapses to the singleton `[None]` axis. -/
def optAxis : Option (List String) → List (Option String)
  | none => [none]
  | some [] => [none]
  | some l => l.map some

/-- Python `state if state else [None]` (line 790).  `state` is a
string, so iterating over a non-empty state yields its characters,
one 1-character string each. -/
def stateAxis : Option String → List (Option String)
  | none => [none]
  | some s => if s = "" then [none] else s.data.map (fun c => some (String.mk [c]))

/-- The `parameter_sets` comprehension of `make_call` (lines 786-790):
years × countries × districts × ports × states, in source order. -/
def parameter_sets (start_year end_year : Nat)
    (cty_codes dist_codes port_codes : Option (List String))
    (state : Option String) :
    List (Nat × Option String × Option String × Option String × Option String) :=
  (List.range' start_year (end_year - start_year)).flatMap (fun year =>
    (optAxis cty_codes).flatMap (fun cty =>
      (optAxis dist_codes).flatMap (fun dist =>
        (optAxis port_codes).flatMap (fun port =>
          (stateAxis state).map (fun st => (year, cty, dist, port, st))))))

/-- Python `if x: temp_params[k] = x` for a dimension value (lines
795-798): `None` and the empty string are falsy and add no key. -/
def condInsert (ps : Params) (k : String) (v : Option String) : Params :=
  match v with
  | some s => if s = "" then ps else paramInsert ps k s
  | none => ps

/-- The `temp_params` dict built for one parameter set (lines 793-798):
a copy of `parameters` with `time` set and each truthy dimension value
added under its key. -/
def temp_params (parameters : Params) (year : Nat)
    (cty dist port st : Option String) : Params :=
  condInsert (condInsert (condInsert (condInsert
    (paramInsert parameters "time" (toString year))
    "CTY_CODE" cty) "DISTRICT" dist) "PORT" port) "STATE" st

/-- The request `make_call` issues for one parameter set under the
current commodity code and parameter dict, tagged with its axis
combination. -/
def planEntry (base_url : String) (code : Option String) (parameters : Params) :
    Nat × Option String × Option String × Option String × Option String →
    Combo × QueryReq
  | (year, cty, dist, port, st) =>
    (⟨code, year, cty, dist, port, st⟩,
     ⟨base_url, temp_params parameters year cty dist port st⟩)

/-- Loop body of `make_call` for one request (lines 800-811): on HTTP
200 append the rows to `all_data` and snapshot it into `data` (the
temp-CSV round trip of lines 806-808 reproduces the accumulated
table), otherwise print the failure line. -/
def stepAcc (code : Option String) (e : Combo × QueryReq) (r : ApiResponse)
    (acc : CallAcc) : CallAcc :=
  if r.status = 200 then
    ⟨acc.all_data ++ r.rows, some (acc.all_data ++ r.rows), acc.issued ++ [e], acc.log⟩
  else
    ⟨acc.all_data, acc.data, acc.issued ++ [e], acc.log ++ [⟨code, r.status, e.2⟩]⟩

/-- Inner loop of `make_call` (lines 792-811): issue one request per
parameter set and fold `stepAcc` over the responses. -/
def runParamSets (base_url : String) (respond : QueryReq → ApiResponse)
    (code : Option String) (parameters : Params) :
    List (Nat × Option String × Option String × Option String × Option String) →
    CallAcc → CallAcc
  | [], acc => acc
  | q :: rest, acc =>
    runParamSets base_url respond code parameters rest
      (stepAcc code (planEntry base_url code parameters q)
        (respond (planEntry base_url code parameters q).2) acc)

/-- Python `parameters[commodity_param] = code` (lines 780-781),
skipped when the placeholder `None` code is active. -/
def codeParams (commodity_param : String) (parameters : Params) :
    Option String → Params
  | some c => paramInsert parameters commodity_param c
  | none => parameters

/-- Outer loop of `make_call` (line 779): iterate over the commodity
codes, mutating the shared `parameters` dict, and run the inner loop
for each. -/
def runCodes (base_url : String) (respond : QueryReq → ApiResponse)
    (commodity_param : String)
    (sets : List (Nat × Option String × Option String × Option String × Option String)) :
    List (Option String) → Params → CallAcc → CallAcc
  | [], _, acc => acc
  | code :: rest, parameters, acc =>
    let parameters := codeParams commodity_param parameters code
    let acc := runParamSets base_url respond code parameters sets acc
    runCodes base_url respond commodity_param sets rest parameters acc

/-- Python `commodity_param = 'E_COMMODITY' if imp_exp == 'exports'
else 'I_COMMODITY'` (line 773). -/
def commodityParamOf (imp_exp : String) : String :=
  if imp_exp = "exports" then "E_COMMODITY" else "I_COMMODITY"

/-- Python `if code_list is None: code_list = [None]` (lines 776-777):
only a missing list is replaced by the placeholder; a present list is
iterated as is. -/
def codesOf : Option (List String) → List (Option String)
  | none => [none]
  | some l => l.map some

/-- Embedding of `make_call` (lines 754-813).  `respond` stands for the
remote API.  The Python function returns the field `data` of the
result; `issued` and `log` record the requests issued and the failure
lines printed along the way. -/
def make_call (base_url : String) (parameters : Params)
    (start_year end_year : Nat) (imp_exp : String)
    (code_list cty_codes dist_codes port_codes : Option (List String))
    (state : Option String) (respond : QueryReq → ApiResponse) : CallAcc :=
  runCodes base_url respond (commodityParamOf imp_exp)
    (parameter_sets start_year end_year cty_codes dist_codes port_codes state)
    (codesOf code_list) parameters ⟨[], none, [], []⟩

/-- The full request plan of a `make_call` run: for each commodity code
(under the parameter dict as mutated so far) all parameter sets, in
issue order. -/
def codesPlan (base_url commodity_param : String) (parameters : Params)
    (sets : List (Nat × Option String × Option String × Option String × Option String)) :
    List (Option String) → List (Combo × QueryReq)
  | [] => []
  | code :: rest =>
    let ps := codeParams commodity_param parameters code
    sets.map (planEntry base_url code ps) ++ codesPlan base_url commodity_param ps sets rest

/-- The failure lines a batch prints: one per issued request whose
response status is not 200. -/
def failLog (respond : QueryReq → ApiResponse) (entries : List (Combo × QueryReq)) :
    List LogEntry :=
  entries.filterMap (fun e =>
    if (respond e.2).status = 200 then none
    else some ⟨e.1.code, (respond e.2).status, e.2⟩)

/-- The rows contributed by the requests of a batch that returned
HTTP 200, in issue order. -/
def successRows (respond : QueryReq → ApiResponse) (entries : List (Combo × QueryReq)) :
    List (List String) :=
  entries.flatMap (fun e =>
    if (respond e.2).status = 200 then (respond e.2).rows else [])

/-- Whether some request of a batch returned HTTP 200. -/
def anySuccess (respond : QueryReq → ApiResponse) (entries : List (Combo × QueryReq)) : Bool :=
  entries.any (fun e => (respond e.2).status = 200)

/-! ## Structure lemmas about the `make_call` loops -/

theorem planEntry_code (u : String) (code : Option String) (ps : Params)
    (q : Nat × Option String × Option String × Option String × Option String) :
    (planEntry u code ps q).1.code = code := by
  obtain ⟨y, c, d, p, s⟩ := q; rfl

theorem anySuccess_cons (f : QueryReq → ApiResponse) (e : Combo × QueryReq)
    (es : List (Combo × QueryReq)) :
    anySuccess f (e :: es) = (decide ((f e.2).status = 200) || anySuccess f es) := by
  simp [anySuccess]

theorem successRows_cons (f : QueryReq → ApiResponse) (e : Combo × QueryReq)
    (es : List (Combo × QueryReq)) :
    successRows f (e :: es)
      = (if (f e.2).status = 200 then (f e.2).rows else []) ++ successRows f es := by
  simp [successRows]

theorem failLog_cons (f : QueryReq → ApiResponse) (e : Combo × QueryReq)
    (es : List (Combo × QueryReq)) :
    failLog f (e :: es)
      = (if (f e.2).status = 200 then [] else [⟨e.1.code, (f e.2).status, e.2⟩])
        ++ failLog f es := by
  by_cases h : (f e.2).status = 200 <;> simp [failLog, h]

theorem runParamSets_issued (u : String) (f : QueryReq → ApiResponse)
    (code : Option String) (ps : Params) (sets : List _) (acc : CallAcc) :
    (runParamSets u f code ps sets acc).issued
      = acc.issued ++ sets.map (planEntry u code ps) := by
  induction sets generalizing acc with
  | nil => simp [runParamSets]
  | cons q rest ih =>
    rw [runParamSets, ih]
    by_cases h : (f (planEntry u code ps q).2).status = 200 <;>
      simp [stepAcc, h, List.append_assoc]

theorem runParamSets_log (u : String) (f : QueryReq → ApiResponse)
    (code : Option String) (ps : Params) (sets : List _) (acc : CallAcc) :
    (runParamSets u f code ps sets acc).log
      = acc.log ++ failLog f (sets.map (planEntry u code ps)) := by
  induction sets generalizing acc with
  | nil => simp [runParamSets, failLog]
  | cons q rest ih =>
    rw [runParamSets, ih, List.map_cons, failLog_cons]
    by_cases h : (f (planEntry u code ps q).2).status = 200 <;>
      simp [stepAcc, h, List.append_assoc, planEntry_code]

theorem successRows_nil_of_no_success (f : QueryReq → ApiResponse)
    (es : List (Combo × QueryReq)) (h : anySuccess f es = false) :
    successRows f es = [] := by
  induction es with
  | nil => rfl
  | cons e rest ih =>
    simp only [anySuccess, List.any_cons, Bool.or_eq_false_iff,
      decide_eq_false_iff_not] at h
    simp only [successRows, List.flatMap_cons, if_neg h.1, List.nil_append]
    exact ih h.2

theorem runParamSets_all_data (u : String) (f : QueryReq → ApiResponse)
    (code : Option String) (ps : Params) (sets : List _) (acc : CallAcc) :
    (runParamSets u f code ps sets acc).all_data
      = acc.all_data ++ successRows f (sets.map (planEntry u code ps)) := by
  induction sets generalizing acc with
  | nil => simp [runParamSets, successRows]
  | cons q rest ih =>
    rw [runParamSets, ih, List.map_cons, successRows_cons]
    by_cases h : (f (planEntry u code ps q).2).status = 200 <;>
      simp [stepAcc, h, List.append_assoc]

theorem runParamSets_data (u : String) (f : QueryReq → ApiResponse)
    (code : Option String) (ps : Params) (sets : List _) (acc : CallAcc) :
    (runParamSets u f code ps sets acc).data
      = if anySuccess f (sets.map (planEntry u code ps))
        then some (acc.all_data ++ successRows f (sets.map (planEntry u code ps)))
        else acc.data := by
  induction sets generalizing acc with
  | nil => simp [runParamSets, anySuccess, successRows]
  | cons q rest ih =>
    rw [runParamSets, ih, List.map_cons, successRows_cons, anySuccess_cons]
    by_cases h : (f (planEntry u code ps q).2).status = 200
    · by_cases h2 : anySuccess f (rest.map (planEntry u code ps)) = true
      · simp [stepAcc, h, h2, List.append_assoc]
      · have hz := successRows_nil_of_no_success f (rest.map (planEntry u code ps))
          (by simpa using h2)
        simp [stepAcc, h, h2, hz]
    · simp [stepAcc, h]


theorem anySuccess_append (f : QueryReq → ApiResponse) (es1 es2 : List (Combo × QueryReq)) :
    anySuccess f (es1 ++ es2) = (anySuccess f es1 || anySuccess f es2) := by
  simp [anySuccess]

theorem successRows_append (f : QueryReq → ApiResponse) (es1 es2 : List (Combo × QueryReq)) :
    successRows f (es1 ++ es2) = successRows f es1 ++ successRows f es2 := by
  simp [successRows]

theorem failLog_append (f : QueryReq → ApiResponse) (es1 es2 : List (Combo × QueryReq)) :
    failLog f (es1 ++ es2) = failLog f es1 ++ failLog f es2 := by
  simp [failLog]

theorem runCodes_issued (u : String) (f : QueryReq → ApiResponse) (cp : String)
    (sets : List _) (codes : List (Option String)) :
    ∀ (P : Params) (acc : CallAcc),
    (runCodes u f cp sets codes P acc).issued = acc.issued ++ codesPlan u cp P sets codes := by
  induction codes with
  | nil => intro P acc; simp [runCodes, codesPlan]
  | cons c rest ih =>
    intro P acc
    rw [runCodes, ih, runParamSets_issued, codesPlan]
    simp [List.append_assoc]

theorem runCodes_log (u : String) (f : QueryReq → ApiResponse) (cp : String)
    (sets : List _) (codes : List (Option String)) :
    ∀ (P : Params) (acc : CallAcc),
    (runCodes u f cp sets codes P acc).log = acc.log ++ failLog f (codesPlan u cp P sets codes) := by
  induction codes with
  | nil => intro P acc; simp [runCodes, codesPlan, failLog]
  | cons c rest ih =>
    intro P acc
    rw [runCodes, ih, runParamSets_log, codesPlan, failLog_append]
    simp [List.append_assoc]

theorem runCodes_all_data (u : String) (f : QueryReq → ApiResponse) (cp : String)
    (sets : List _) (codes : List (Option String)) :
    ∀ (P : Params) (acc : CallAcc),
    (runCodes u f cp sets codes P acc).all_data
      = acc.all_data ++ successRows f (codesPlan u cp P sets codes) := by
  induction codes with
  | nil => intro P acc; simp [runCodes, codesPlan, successRows]
  | cons c rest ih =>
    intro P acc
    rw [runCodes, ih, runParamSets_all_data, codesPlan, successRows_append]
    simp [List.append_assoc]

theorem runCodes_data (u : String) (f : QueryReq → ApiResponse) (cp : String)
    (sets : List _) (codes : List (Option String)) :
    ∀ (P : Params) (acc : CallAcc),
    (runCodes u f cp sets codes P acc).data
      = if anySuccess f (codesPlan u cp P sets codes)
        then some (acc.all_data ++ successRows f (codesPlan u cp P sets codes))
        else acc.data := by
  induction codes with
  | nil => intro P acc; simp [runCodes, codesPlan, anySuccess, successRows]
  | cons c rest ih =>
    intro P acc
    rw [runCodes, ih, runParamSets_data, runParamSets_all_data, codesPlan,
      anySuccess_append, successRows_append]
    by_cases h2 : anySuccess f (codesPlan u cp (codeParams cp P c) sets rest) = true
    · simp [h2, List.append_assoc]
    · have hz := successRows_nil_of_no_success f _ (by simpa using h2)
      by_cases h1 : anySuccess f (sets.map (planEntry u c (codeParams cp P c))) = true <;>
        simp [h1, h2, hz]

theorem make_call_issued (u : String) (P : Params) (sy ey : Nat) (ie : String)
    (cl cty dist port : Option (List String)) (st : Option String)
    (f : QueryReq → ApiResponse) :
    (make_call u P sy ey ie cl cty dist port st f).issued
      = codesPlan u (commodityParamOf ie) P
          (parameter_sets sy ey cty dist port st) (codesOf cl) := by
  rw [make_call, runCodes_issued]; rfl

theorem make_call_log (u : String) (P : Params) (sy ey : Nat) (ie : String)
    (cl cty dist port : Option (List String)) (st : Option String)
    (f : QueryReq → ApiResponse) :
    (make_call u P sy ey ie cl cty dist port st f).log
      = failLog f (make_call u P sy ey ie cl cty dist port st f).issued := by
  rw [make_call_issued, make_call, runCodes_log]; simp

theorem make_call_data (u : String) (P : Params) (sy ey : Nat) (ie : String)
    (cl cty dist port : Option (List String)) (st : Option String)
    (f : QueryReq → ApiResponse) :
    (make_call u P sy ey ie cl cty dist port st f).data
      = if anySuccess f (make_call u P sy ey ie cl cty dist port st f).issued
        then some (successRows f (make_call u P sy ey ie cl cty dist port st f).issued)
        else none := by
  rw [make_call_issued, make_call, runCodes_data]; simp



theorem codesPlan_length (u cp : String) (sets : List _) (codes : List (Option String)) :
    ∀ P, (codesPlan u cp P sets codes).length = codes.length * sets.length := by
  induction codes with
  | nil => intro P; simp [codesPlan]
  | cons c rest ih =>
    intro P
    simp [codesPlan, ih, Nat.succ_mul, Nat.add_comm]

theorem length_flatMap_const {α β : Type} (l : List α) (f : α → List β) (k : Nat)
    (h : ∀ a, (f a).length = k) : (l.flatMap f).length = l.length * k := by
  induction l with
  | nil => simp
  | cons a t ih => simp [h, ih, Nat.succ_mul, Nat.add_comm]

/-- The length of an optional axis code list (0 when absent). -/
def optLen (l : Option (List String)) : Nat := (l.map List.length).getD 0

theorem optAxis_length (l : Option (List String)) :
    (optAxis l).length = max (optLen l) 1 := by
  match l with
  | none => rfl
  | some [] => rfl
  | some (x :: xs) => simp [optAxis, optLen]

theorem parameter_sets_length (sy ey : Nat) (cty dist port : Option (List String))
    (st : Option String) :
    (parameter_sets sy ey cty dist port st).length
      = (ey - sy) * ((optAxis cty).length * ((optAxis dist).length
          * ((optAxis port).length * (stateAxis st).length))) := by
  have h1 : ∀ (y : Nat) (c d p : Option String),
      ((stateAxis st).map (fun s => (y, c, d, p, s))).length = (stateAxis st).length := by
    intro y c d p; simp
  have h2 : ∀ (y : Nat) (c d : Option String),
      ((optAxis port).flatMap (fun p => (stateAxis st).map (fun s => (y, c, d, p, s)))).length
        = (optAxis port).length * (stateAxis st).length :=
    fun y c d => length_flatMap_const _ _ _ (h1 y c d)
  have h3 : ∀ (y : Nat) (c : Option String),
      ((optAxis dist).flatMap (fun d => (optAxis port).flatMap (fun p =>
          (stateAxis st).map (fun s => (y, c, d, p, s))))).length
        = (optAxis dist).length * ((optAxis port).length * (stateAxis st).length) :=
    fun y c => length_flatMap_const _ _ _ (h2 y c)
  have h4 : ∀ (y : Nat),
      ((optAxis cty).flatMap (fun c => (optAxis dist).flatMap (fun d =>
          (optAxis port).flatMap (fun p =>
            (stateAxis st).map (fun s => (y, c, d, p, s)))))).length
        = (optAxis cty).length * ((optAxis dist).length
            * ((optAxis port).length * (stateAxis st).length)) :=
    fun y => length_flatMap_const _ _ _ (h3 y)
  calc (parameter_sets sy ey cty dist port st).length
      = (List.range' sy (ey - sy)).length * ((optAxis cty).length * ((optAxis dist).length
          * ((optAxis port).length * (stateAxis st).length))) :=
        length_flatMap_const _ _ _ h4
    _ = _ := by rw [List.length_range']

theorem nodup_flatMap_inj {α β : Type} (l : List α) (f : α → List β) (g : β → α)
    (hl : l.Nodup) (hf : ∀ a, (f a).Nodup) (hg : ∀ a b, b ∈ f a → g b = a) :
    (l.flatMap f).Nodup := by
  induction l with
  | nil => simp
  | cons a t ih =>
    rw [List.flatMap_cons]
    rcases List.nodup_cons.mp hl with ⟨ha, ht⟩
    refine List.Nodup.append (hf a) (ih ht) ?_
    intro b hb1 hb2
    rcases List.mem_flatMap.mp hb2 with ⟨a2, ha2, hb2m⟩
    exact ha (((hg a b hb1).symm.trans (hg a2 b hb2m)) ▸ ha2)

theorem optAxis_nodup (l : Option (List String)) (h : ∀ xs, l = some xs → xs.Nodup) :
    (optAxis l).Nodup := by
  match l with
  | none => simp [optAxis]
  | some [] => simp [optAxis]
  | some (x :: xs) =>
    simpa [optAxis] using List.Nodup.map (Option.some_injective _) (h _ rfl)

theorem parameter_sets_nodup (sy ey : Nat) (cty dist port : Option (List String))
    (st : Option String)
    (h1 : (optAxis cty).Nodup) (h2 : (optAxis dist).Nodup)
    (h3 : (optAxis port).Nodup) (h4 : (stateAxis st).Nodup) :
    (parameter_sets sy ey cty dist port st).Nodup := by
  unfold parameter_sets
  apply nodup_flatMap_inj _ _ (fun q => q.1) (List.nodup_range' _ _)
  · intro y
    apply nodup_flatMap_inj _ _ (fun q => q.2.1) h1
    · intro c
      apply nodup_flatMap_inj _ _ (fun q => q.2.2.1) h2
      · intro d
        apply nodup_flatMap_inj _ _ (fun q => q.2.2.2.1) h3
        · intro p
          exact List.Nodup.map (fun s1 s2 hs => by simpa using hs) h4
        · intro p q hq
          rcases List.mem_map.mp hq with ⟨s, hs, rfl⟩; rfl
      · intro d q hq
        simp only [List.mem_flatMap, List.mem_map] at hq
        obtain ⟨p, hp, s, hs, rfl⟩ := hq; rfl
    · intro c q hq
      simp only [List.mem_flatMap, List.mem_map] at hq
      obtain ⟨d, hd, p, hp, s, hs, rfl⟩ := hq; rfl
  · intro y q hq
    simp only [List.mem_flatMap, List.mem_map] at hq
    obtain ⟨c, hc, d, hd, p, hp, s, hs, rfl⟩ := hq; rfl

/-- The axis combination of one parameter set under a commodity code. -/
def comboOf (code : Option String)
    (q : Nat × Option String × Option String × Option String × Option String) : Combo :=
  ⟨code, q.1, q.2.1, q.2.2.1, q.2.2.2.1, q.2.2.2.2⟩

theorem planEntry_fst (u : String) (code : Option String) (ps : Params)
    (q : Nat × Option String × Option String × Option String × Option String) :
    (planEntry u code ps q).1 = comboOf code q := by
  obtain ⟨y, c, d, p, s⟩ := q; rfl

theorem codesPlan_map_fst (u cp : String) (sets : List _) (codes : List (Option String)) :
    ∀ P, (codesPlan u cp P sets codes).map Prod.fst
      = codes.flatMap (fun c => sets.map (comboOf c)) := by
  induction codes with
  | nil => intro P; simp [codesPlan]
  | cons c rest ih =>
    intro P
    simp [codesPlan, List.map_append, List.map_map, ih, Function.comp_def, planEntry_fst]

theorem comboOf_inj (c : Option String) : Function.Injective (comboOf c) := by
  intro q1 q2 h
  obtain ⟨y1, c1, d1, p1, s1⟩ := q1
  obtain ⟨y2, c2, d2, p2, s2⟩ := q2
  simpa [comboOf, Combo.mk.injEq, Prod.ext_iff] using h

theorem codesPlan_combos_nodup (u cp : String) (P : Params) (sets : List _)
    (codes : List (Option String)) (hcodes : codes.Nodup) (hsets : sets.Nodup) :
    ((codesPlan u cp P sets codes).map Prod.fst).Nodup := by
  rw [codesPlan_map_fst]
  apply nodup_flatMap_inj _ _ (fun cb => cb.code) hcodes
  · intro c
    exact List.Nodup.map (comboOf_inj c) hsets
  · intro c cb hcb
    rcases List.mem_map.mp hcb with ⟨q, hq, rfl⟩
    obtain ⟨y, cc, d, p, s⟩ := q; rfl

theorem mem_parameter_sets_components {sy ey : Nat}
    {cty dist port : Option (List String)} {st : Option String}
    {q : Nat × Option String × Option String × Option String × Option String}
    (h : q ∈ parameter_sets sy ey cty dist port st) :
    q.1 ∈ List.range' sy (ey - sy) ∧ q.2.1 ∈ optAxis cty ∧ q.2.2.1 ∈ optAxis dist
      ∧ q.2.2.2.1 ∈ optAxis port ∧ q.2.2.2.2 ∈ stateAxis st := by
  simp only [parameter_sets, List.mem_flatMap, List.mem_map] at h
  obtain ⟨y, hy, c, hc, d, hd, p, hp, s, hs, rfl⟩ := h
  exact ⟨hy, hc, hd, hp, hs⟩



theorem mem_codesPlan_combo {u cp : String} {P : Params} {sets : List _}
    {codes : List (Option String)} {cb : Combo}
    (h : cb ∈ (codesPlan u cp P sets codes).map Prod.fst) :
    ∃ c ∈ codes, ∃ q ∈ sets, cb = comboOf c q := by
  rw [codesPlan_map_fst] at h
  simp only [List.mem_flatMap, List.mem_map] at h
  obtain ⟨c, hc, q, hq, rfl⟩ := h
  exact ⟨c, hc, q, hq, rfl⟩

/-- C1: over N years, C commodity codes (or no commodity filter), K
country codes (or none) and D district codes (or none), with no port
or state filter, `make_call` issues exactly
N × max(C,1) × max(K,1) × max(D,1) requests, no two of which share the
same (commodity code, year, country code, district code) combination. -/
theorem make_call_request_count_unique
    (base : String) (parameters : Params) (sy ey : Nat) (ie : String)
    (cl cty dist : Option (List String)) (f : QueryReq → ApiResponse)
    (hc : cl = none ∨ ∃ l, cl = some l ∧ l ≠ [] ∧ l.Nodup)
    (hk : ∀ l, cty = some l → l.Nodup)
    (hd : ∀ l, dist = some l → l.Nodup) :
    (make_call base parameters sy ey ie cl cty dist none none f).issued.length
      = (ey - sy) * max (optLen cl) 1 * max (optLen cty) 1 * max (optLen dist) 1
    ∧ ((make_call base parameters sy ey ie cl cty dist none none f).issued.map
        (fun e => (e.1.code, e.1.year, e.1.cty, e.1.dist))).Nodup := by
  have hcodes_len : (codesOf cl).length = max (optLen cl) 1 := by
    rcases hc with rfl | ⟨l, rfl, hne, hnd⟩
    · rfl
    · cases l with
      | nil => exact absurd rfl hne
      | cons x xs => simp [codesOf, optLen]
  have hcodes_nodup : (codesOf cl).Nodup := by
    rcases hc with rfl | ⟨l, rfl, hne, hnd⟩
    · simp [codesOf]
    · exact List.Nodup.map (Option.some_injective _) hnd
  have hsets_nodup : (parameter_sets sy ey cty dist none none).Nodup :=
    parameter_sets_nodup sy ey cty dist none none
      (optAxis_nodup cty hk) (optAxis_nodup dist hd)
      (by simp [optAxis]) (by simp [stateAxis])
  constructor
  · rw [make_call_issued, codesPlan_length, parameter_sets_length]
    simp only [optAxis_length]
    have e0 : (stateAxis (none : Option String)).length = 1 := rfl
    have e1 : (optLen (none : Option (List String))) = 0 := rfl
    rw [hcodes_len, e0, e1]
    simp only [Nat.zero_max, Nat.mul_one, Nat.one_mul]
    ring
  · rw [make_call_issued]
    have hfull := codesPlan_combos_nodup base (commodityParamOf ie) parameters
      (parameter_sets sy ey cty dist none none) (codesOf cl) hcodes_nodup hsets_nodup
    rw [show (fun e : Combo × QueryReq => (e.1.code, e.1.year, e.1.cty, e.1.dist))
        = ((fun cb : Combo => (cb.code, cb.year, cb.cty, cb.dist)) ∘ Prod.fst) from rfl,
      ← List.map_map]
    apply List.Nodup.map_on ?inj hfull
    intro cb1 h1 cb2 h2 heq
    obtain ⟨c1, hc1, q1, hq1, rfl⟩ := mem_codesPlan_combo h1
    obtain ⟨c2, hc2, q2, hq2, rfl⟩ := mem_codesPlan_combo h2
    have k1 := (mem_parameter_sets_components hq1).2.2.2
    have k2 := (mem_parameter_sets_components hq2).2.2.2
    simp only [optAxis, stateAxis, List.mem_singleton] at k1 k2
    obtain ⟨y1, cc1, d1, p1, s1⟩ := q1
    obtain ⟨y2, cc2, d2, p2, s2⟩ := q2
    simp only [comboOf] at heq k1 k2 ⊢
    simp only [Prod.mk.injEq] at heq
    simp_all


theorem make_call_request_count_unique_witness :
    (make_call "https://api.census.gov/data/timeseries/intltrade/imports/hs"
      (determine_base_params "imp_hs") 2020 2022 "imports"
      (some ["85"]) (some ["1220", "2010"]) none none none
      (fun _ => ⟨200, []⟩)).issued.length = 4
    ∧ ((make_call "https://api.census.gov/data/timeseries/intltrade/imports/hs"
      (determine_base_params "imp_hs") 2020 2022 "imports"
      (some ["85"]) (some ["1220", "2010"]) none none none
      (fun _ => ⟨200, []⟩)).issued.map
        (fun e => (e.1.code, e.1.year, e.1.cty, e.1.dist))).Nodup := by
  have h := make_call_request_count_unique
    "https://api.census.gov/data/timeseries/intltrade/imports/hs"
    (determine_base_params "imp_hs") 2020 2022 "imports"
    (some ["85"]) (some ["1220", "2010"]) none (fun _ => ⟨200, []⟩)
    (Or.inr ⟨["85"], rfl, by decide, by decide⟩)
    (fun l hl => by cases hl; decide)
    (fun l hl => by cases hl)
  exact ⟨h.1.trans (by decide), h.2⟩

/-- C2: over the six (direction, endpoint) pairs the endpoint selection
is total and injective: `determine_trade_type` yields the six distinct
tags, `determine_base_url` six distinct base URLs, and
`determine_base_params` a non-empty requested-field set for each. -/
theorem endpoint_selection_total_injective :
    (pairs6.map (fun p => determine_trade_type p.1 p.2)
      = ["imp_hs", "imp_port", "imp_st", "exp_hs", "exp_port", "exp_st"])
    ∧ (pairs6.map (fun p => determine_trade_type p.1 p.2)).Nodup
    ∧ (pairs6.map (fun p => determine_base_url p.1 p.2)).Nodup
    ∧ (pairs6.all (fun p =>
        !(requested_fields (determine_trade_type p.1 p.2)).isEmpty
        && (requested_fields (determine_trade_type p.1 p.2)).all (fun f => !(f == "")))
      = true) := by
  decide

/-- Test oracle for the C4 scenario of three requests: the `time=2021`
request receives HTTP 500, the other two succeed with one row each. -/
def respondScenario : QueryReq → ApiResponse := fun req =>
  if pyGet req.params "time" = some "2021" then ⟨500, [["row2021"]]⟩
  else if pyGet req.params "time" = some "2020" then ⟨200, [["row2020"]]⟩
  else ⟨200, [["row2022"]]⟩

/-- C4: a non-200 status never aborts the batch: the set of issued
requests does not depend on the responses, each failure contributes a
log line carrying its commodity code, status and full request, the
accumulated table holds exactly the rows of the 200 responses, and in
the concrete three-request scenario the middle 500 leaves the other
two requests issued and their rows in the table. -/
theorem make_call_partial_failure_isolation
    (base : String) (P : Params) (sy ey : Nat) (ie : String)
    (cl cty dist port : Option (List String)) (st : Option String)
    (f f2 : QueryReq → ApiResponse) :
    (make_call base P sy ey ie cl cty dist port st f).issued
      = (make_call base P sy ey ie cl cty dist port st f2).issued
    ∧ (make_call base P sy ey ie cl cty dist port st f).log
      = failLog f (make_call base P sy ey ie cl cty dist port st f).issued
    ∧ (make_call base P sy ey ie cl cty dist port st f).data
      = (if anySuccess f (make_call base P sy ey ie cl cty dist port st f).issued
         then some (successRows f (make_call base P sy ey ie cl cty dist port st f).issued)
         else none)
    ∧ (make_call "https://api.census.gov/data/timeseries/intltrade/imports/hs"
        (determine_base_params "imp_hs") 2020 2023 "imports"
        none none none none none respondScenario).issued.length = 3
    ∧ (make_call "https://api.census.gov/data/timeseries/intltrade/imports/hs"
        (determine_base_params "imp_hs") 2020 2023 "imports"
        none none none none none respondScenario).data
      = some [["row2020"], ["row2022"]]
    ∧ (make_call "https://api.census.gov/data/timeseries/intltrade/imports/hs"
        (determine_base_params "imp_hs") 2020 2023 "imports"
        none none none none none respondScenario).log.map (fun e => e.status)
      = [500] := by
  refine ⟨?_, make_call_log _ _ _ _ _ _ _ _ _ _ _, make_call_data _ _ _ _ _ _ _ _ _ _ _,
    ?_, ?_, ?_⟩
  · rw [make_call_issued, make_call_issued]
  · decide
  · decide
  · decide

/-- Embedding of the data check of `main`
(Census_API_Program.py lines 102-106). -/
def main_data_check {α : Type} (data : Option α) : String :=
  match data with
  | none => "No data was found for the specified parameters. Please review the error message above and try again."
  | some _ => "Data was successfully retrieved!"

/-- C5: `make_call` returns `None` exactly when no request of the batch
returned HTTP 200, and in that case `main` prints the non-fatal
no-data notice rather than the success message. -/
theorem make_call_none_iff_no_success
    (base : String) (P : Params) (sy ey : Nat) (ie : String)
    (cl cty dist port : Option (List String)) (st : Option String)
    (f : QueryReq → ApiResponse) :
    ((make_call base P sy ey ie cl cty dist port st f).data = none
      ↔ anySuccess f (make_call base P sy ey ie cl cty dist port st f).issued = false)
    ∧ ((make_call base P sy ey ie cl cty dist port st f).data = none →
        main_data_check (make_call base P sy ey ie cl cty dist port st f).data
          = "No data was found for the specified parameters. Please review the error message above and try again.") := by
  constructor
  · rw [make_call_data]
    by_cases h : anySuccess f (make_call base P sy ey ie cl cty dist port st f).issued
      = true
    · simp [h]
    · simp [h]
  · intro h
    rw [h]
    rfl

theorem make_call_none_iff_no_success_witness :
    (make_call "https://api.census.gov/data/timeseries/intltrade/imports/hs"
      (determine_base_params "imp_hs") 2020 2021 "imports"
      none none none none none (fun _ => ⟨500, []⟩)).data = none
    ∧ main_data_check (make_call "https://api.census.gov/data/timeseries/intltrade/imports/hs"
      (determine_base_params "imp_hs") 2020 2021 "imports"
      none none none none none (fun _ => ⟨500, []⟩)).data
      = "No data was found for the specified parameters. Please review the error message above and try again." := by
  have h := make_call_none_iff_no_success
    "https://api.census.gov/data/timeseries/intltrade/imports/hs"
    (determine_base_params "imp_hs") 2020 2021 "imports"
    none none none none none (fun _ => ⟨500, []⟩)
  have hnone := h.1.mpr (by decide)
  exact ⟨hnone, h.2 hnone⟩




theorem planEntry_params (u : String) (code : Option String) (ps : Params)
    (q : Nat × Option String × Option String × Option String × Option String) :
    (planEntry u code ps q).2.params
      = temp_params ps q.1 q.2.1 q.2.2.1 q.2.2.2.1 q.2.2.2.2 := by
  obtain ⟨y, c, d, p, s⟩ := q; rfl

theorem hasKey_paramInsert_ne (ps : Params) (k v K : String) (h : K ≠ k) :
    hasKey (paramInsert ps k v) K = hasKey ps K := by
  unfold paramInsert hasKey
  by_cases hany : ps.any (fun p => p.1 = k) = true
  · rw [if_pos hany, List.any_map]
    congr 1
    funext p
    by_cases hp : p.1 = k <;> simp [hp, Function.comp]
  · rw [if_neg hany, List.any_append]
    simp [Ne.symm h]

theorem hasKey_condInsert (ps : Params) (k : String) (v : Option String) (K : String)
    (h : v = none ∨ K ≠ k) : hasKey (condInsert ps k v) K = hasKey ps K := by
  match v, h with
  | none, _ => rfl
  | some s, h =>
    have hK : K ≠ k := by
      rcases h with h | h
      · exact absurd h (by simp)
      · exact h
    show hasKey (if s = "" then ps else paramInsert ps k s) K = hasKey ps K
    by_cases hs : s = ""
    · rw [if_pos hs]
    · rw [if_neg hs, hasKey_paramInsert_ne _ _ _ _ hK]

theorem hasKey_temp_params (P : Params) (y : Nat) (c d p s : Option String) (K : String)
    (ht : K ≠ "time")
    (hc : c = none ∨ K ≠ "CTY_CODE") (hd : d = none ∨ K ≠ "DISTRICT")
    (hp : p = none ∨ K ≠ "PORT") (hs : s = none ∨ K ≠ "STATE") :
    hasKey (temp_params P y c d p s) K = hasKey P K := by
  unfold temp_params
  rw [hasKey_condInsert _ _ _ _ hs, hasKey_condInsert _ _ _ _ hp,
    hasKey_condInsert _ _ _ _ hd, hasKey_condInsert _ _ _ _ hc,
    hasKey_paramInsert_ne _ _ _ _ ht]

theorem hasKey_codeParams (cp : String) (P : Params) (c : Option String) (K : String)
    (h : K ≠ cp) : hasKey (codeParams cp P c) K = hasKey P K := by
  cases c with
  | none => rfl
  | some cc => exact hasKey_paramInsert_ne _ _ _ _ h

theorem codesPlan_hasKey (u cp : String) (sets : List _) (K : String)
    (hcp : K ≠ cp)
    (hsets : ∀ (P : Params) q, q ∈ sets →
      hasKey (temp_params P q.1 q.2.1 q.2.2.1 q.2.2.2.1 q.2.2.2.2) K = hasKey P K) :
    ∀ (P : Params) (codes : List (Option String)),
      ∀ e ∈ codesPlan u cp P sets codes, hasKey e.2.params K = hasKey P K := by
  intro P codes
  induction codes generalizing P with
  | nil => intro e he; simp [codesPlan] at he
  | cons c rest ih =>
    intro e he
    simp only [codesPlan] at he
    have hP : hasKey (codeParams cp P c) K = hasKey P K := hasKey_codeParams cp P c K hcp
    rcases List.mem_append.mp he with h1 | h2
    · rcases List.mem_map.mp h1 with ⟨q, hq, rfl⟩
      rw [planEntry_params, hsets _ q hq, hP]
    · exact (ih (codeParams cp P c) e h2).trans hP

theorem codesPlan_hasKey_placeholder (u cp : String) (sets : List _) (K : String)
    (hsets : ∀ (P : Params) q, q ∈ sets →
      hasKey (temp_params P q.1 q.2.1 q.2.2.1 q.2.2.2.1 q.2.2.2.2) K = hasKey P K) :
    ∀ (P : Params), ∀ e ∈ codesPlan u cp P sets [none],
      hasKey e.2.params K = hasKey P K := by
  intro P e he
  simp only [codesPlan] at he
  rcases List.mem_append.mp he with h1 | h2
  · rcases List.mem_map.mp h1 with ⟨q, hq, rfl⟩
    rw [planEntry_params, hsets _ q hq]
    rfl
  · simp [codesPlan] at h2

theorem commodityParamOf_cases (ie : String) :
    commodityParamOf ie = "E_COMMODITY" ∨ commodityParamOf ie = "I_COMMODITY" := by
  by_cases h : ie = "exports" <;> simp [commodityParamOf, h]



/-- C3: an unset axis contributes no parameter key: with no country
list the requests carry a `CTY_CODE` key only if the base parameters
already had one, and likewise for `DISTRICT`, `PORT`, `STATE` and the
commodity key; concretely, with no filters and years 2020-2020 exactly
one request is issued, with `time=2020` and no commodity, `CTY_CODE`
or `DISTRICT` key. -/
theorem make_call_unset_axes_omit_keys :
    (∀ (base : String) (P : Params) (sy ey : Nat) (ie : String)
       (cl dist port : Option (List String)) (st : Option String)
       (f : QueryReq → ApiResponse),
       ((make_call base P sy ey ie cl none dist port st f).issued.all
         (fun e => hasKey e.2.params "CTY_CODE" == hasKey P "CTY_CODE")) = true)
    ∧ (∀ (base : String) (P : Params) (sy ey : Nat) (ie : String)
       (cl cty port : Option (List String)) (st : Option String)
       (f : QueryReq → ApiResponse),
       ((make_call base P sy ey ie cl cty none port st f).issued.all
         (fun e => hasKey e.2.params "DISTRICT" == hasKey P "DISTRICT")) = true)
    ∧ (∀ (base : String) (P : Params) (sy ey : Nat) (ie : String)
       (cl cty dist : Option (List String)) (st : Option String)
       (f : QueryReq → ApiResponse),
       ((make_call base P sy ey ie cl cty dist none st f).issued.all
         (fun e => hasKey e.2.params "PORT" == hasKey P "PORT")) = true)
    ∧ (∀ (base : String) (P : Params) (sy ey : Nat) (ie : String)
       (cl cty dist port : Option (List String))
       (f : QueryReq → ApiResponse),
       ((make_call base P sy ey ie cl cty dist port none f).issued.all
         (fun e => hasKey e.2.params "STATE" == hasKey P "STATE")) = true)
    ∧ (∀ (base : String) (P : Params) (sy ey : Nat) (ie : String)
       (cty dist port : Option (List String)) (st : Option String)
       (f : QueryReq → ApiResponse),
       ((make_call base P sy ey ie none cty dist port st f).issued.all
         (fun e => (hasKey e.2.params "I_COMMODITY" == hasKey P "I_COMMODITY")
           && (hasKey e.2.params "E_COMMODITY" == hasKey P "E_COMMODITY"))) = true)
    ∧ (∀ (f : QueryReq → ApiResponse),
       (make_call "https://api.census.gov/data/timeseries/intltrade/imports/hs"
          (determine_base_params "imp_hs") 2020 2021 "imports"
          none none none none none f).issued.map
         (fun e => (pyGet e.2.params "time", hasKey e.2.params "I_COMMODITY",
           hasKey e.2.params "CTY_CODE", hasKey e.2.params "DISTRICT"))
         = [(some "2020", false, false, false)]) := by
  have hcty : ∀ (ie : String), "CTY_CODE" ≠ commodityParamOf ie := by
    intro ie
    rcases commodityParamOf_cases ie with h | h <;> simp [h]
  have hdist : ∀ (ie : String), "DISTRICT" ≠ commodityParamOf ie := by
    intro ie
    rcases commodityParamOf_cases ie with h | h <;> simp [h]
  have hport : ∀ (ie : String), "PORT" ≠ commodityParamOf ie := by
    intro ie
    rcases commodityParamOf_cases ie with h | h <;> simp [h]
  have hstate : ∀ (ie : String), "STATE" ≠ commodityParamOf ie := by
    intro ie
    rcases commodityParamOf_cases ie with h | h <;> simp [h]
  refine ⟨?_, ?_, ?_, ?_, ?_, ?_⟩
  · intro base P sy ey ie cl dist port st f
    rw [make_call_issued, List.all_eq_true]
    intro e he
    have hax := codesPlan_hasKey base (commodityParamOf ie) _ "CTY_CODE" (hcty ie)
      (fun P' q hq => by
        have hcomp := (mem_parameter_sets_components hq).2.1
        simp only [optAxis, List.mem_singleton] at hcomp
        exact hasKey_temp_params _ _ _ _ _ _ _ (by decide) (Or.inl hcomp)
          (Or.inr (by decide)) (Or.inr (by decide)) (Or.inr (by decide)))
      P (codesOf cl) e he
    simp [hax]
  · intro base P sy ey ie cl cty port st f
    rw [make_call_issued, List.all_eq_true]
    intro e he
    have hax := codesPlan_hasKey base (commodityParamOf ie) _ "DISTRICT" (hdist ie)
      (fun P' q hq => by
        have hcomp := (mem_parameter_sets_components hq).2.2.1
        simp only [optAxis, List.mem_singleton] at hcomp
        exact hasKey_temp_params _ _ _ _ _ _ _ (by decide) (Or.inr (by decide))
          (Or.inl hcomp) (Or.inr (by decide)) (Or.inr (by decide)))
      P (codesOf cl) e he
    simp [hax]
  · intro base P sy ey ie cl cty dist st f
    rw [make_call_issued, List.all_eq_true]
    intro e he
    have hax := codesPlan_hasKey base (commodityParamOf ie) _ "PORT" (hport ie)
      (fun P' q hq => by
        have hcomp := (mem_parameter_sets_components hq).2.2.2.1
        simp only [optAxis, List.mem_singleton] at hcomp
        exact hasKey_temp_params _ _ _ _ _ _ _ (by decide) (Or.inr (by decide))
          (Or.inr (by decide)) (Or.inl hcomp) (Or.inr (by decide)))
      P (codesOf cl) e he
    simp [hax]
  · intro base P sy ey ie cl cty dist port f
    rw [make_call_issued, List.all_eq_true]
    intro e he
    have hax := codesPlan_hasKey base (commodityParamOf ie) _ "STATE" (hstate ie)
      (fun P' q hq => by
        have hcomp := (mem_parameter_sets_components hq).2.2.2.2
        simp only [stateAxis, List.mem_singleton] at hcomp
        exact hasKey_temp_params _ _ _ _ _ _ _ (by decide) (Or.inr (by decide))
          (Or.inr (by decide)) (Or.inr (by decide)) (Or.inl hcomp))
      P (codesOf cl) e he
    simp [hax]
  · intro base P sy ey ie cty dist port st f
    rw [make_call_issued, List.all_eq_true]
    intro e he
    have hi := codesPlan_hasKey_placeholder base (commodityParamOf ie) _ "I_COMMODITY"
      (fun P' q hq =>
        hasKey_temp_params _ _ _ _ _ _ _ (by decide) (Or.inr (by decide))
          (Or.inr (by decide)) (Or.inr (by decide)) (Or.inr (by decide)))
      P e he
    have hex := codesPlan_hasKey_placeholder base (commodityParamOf ie) _ "E_COMMODITY"
      (fun P' q hq =>
        hasKey_temp_params _ _ _ _ _ _ _ (by decide) (Or.inr (by decide))
          (Or.inr (by decide)) (Or.inr (by decide)) (Or.inr (by decide)))
      P e he
    simp [hi, hex]
  · intro f
    rw [make_call_issued]
    decide



theorem mem_codesPlan {u cp : String} {P : Params} {sets : List _}
    {codes : List (Option String)} {e : Combo × QueryReq}
    (h : e ∈ codesPlan u cp P sets codes) :
    ∃ c ∈ codes, ∃ P', ∃ q ∈ sets, e = planEntry u c P' q := by
  induction codes generalizing P with
  | nil => simp [codesPlan] at h
  | cons c rest ih =>
    simp only [codesPlan] at h
    rcases List.mem_append.mp h with h1 | h2
    · rcases List.mem_map.mp h1 with ⟨q, hq, rfl⟩
      exact ⟨c, List.mem_cons_self _ _, _, q, hq, rfl⟩
    · obtain ⟨c2, hc2, P', q, hq, rfl⟩ := ih h2
      exact ⟨c2, List.mem_cons_of_mem _ hc2, P', q, hq, rfl⟩

theorem find?_overwrite (ps : Params) (k v : String)
    (hany : ps.any (fun p => p.1 = k) = true) :
    (ps.map (fun p => if p.1 = k then (k, v) else p)).find? (fun p => p.1 = k)
      = some (k, v) := by
  induction ps with
  | nil => simp at hany
  | cons x t ih =>
    by_cases hx : x.1 = k
    · simp [List.find?, hx]
    · simp only [List.any_cons, hx, decide_eq_false_iff_not, decide_False, Bool.false_or] at hany
      simp [List.find?, hx, ih hany]

theorem pyGet_paramInsert (ps : Params) (k v : String) :
    pyGet (paramInsert ps k v) k = some v := by
  unfold paramInsert pyGet
  by_cases hany : ps.any (fun p => p.1 = k) = true
  · rw [if_pos hany, find?_overwrite ps k v hany]
    rfl
  · rw [if_neg hany]
    have hnone : ps.find? (fun p => p.1 = k) = none := by
      rw [List.find?_eq_none]
      intro x hx hpx
      exact hany (List.any_eq_true.mpr ⟨x, hx, hpx⟩)
    rw [List.find?_append, hnone]
    simp [List.find?]

theorem pyGet_condInsert_some (ps : Params) (k v : String) (hv : v ≠ "") :
    pyGet (condInsert ps k (some v)) k = some v := by
  show pyGet (if v = "" then ps else paramInsert ps k v) k = some v
  rw [if_neg hv, pyGet_paramInsert]

theorem pyGet_temp_params_state (P : Params) (y : Nat) (c d p : Option String)
    (v : String) (hv : v ≠ "") :
    pyGet (temp_params P y c d p (some v)) "STATE" = some v := by
  unfold temp_params
  exact pyGet_condInsert_some _ _ _ hv

theorem singletonStr_ne_empty (ch : Char) : String.mk [ch] ≠ "" := by
  intro h
  have h2 := congrArg String.data h
  simp at h2

/-- C10: on the state endpoint a non-empty state string is iterated
character by character: every issued request carries a `STATE`
parameter holding a single character of the input, the whole
multi-character state code is never sent, and input "TX" yields
exactly the two requests `STATE=T` and `STATE=X`. -/
theorem make_call_state_iterates_characters :
    (∀ (base : String) (P : Params) (sy ey : Nat) (ie : String)
       (cl cty dist port : Option (List String)) (s : String)
       (f : QueryReq → ApiResponse), s ≠ "" →
       ∀ e ∈ (make_call base P sy ey ie cl cty dist port (some s) f).issued,
         ∃ c, c ∈ s.data ∧ pyGet e.2.params "STATE" = some (String.mk [c]))
    ∧ (∀ (base : String) (P : Params) (sy ey : Nat) (ie : String)
       (cl cty dist port : Option (List String)) (s : String)
       (f : QueryReq → ApiResponse), 2 ≤ s.length →
       ∀ e ∈ (make_call base P sy ey ie cl cty dist port (some s) f).issued,
         pyGet e.2.params "STATE" ≠ some s)
    ∧ (∀ (f : QueryReq → ApiResponse),
       (make_call "https://api.census.gov/data/timeseries/intltrade/imports/statehs"
          (determine_base_params "imp_st") 2020 2021 "imports"
          none none none none (some "TX") f).issued.map
         (fun e => pyGet e.2.params "STATE") = [some "T", some "X"]) := by
  have h1 : ∀ (base : String) (P : Params) (sy ey : Nat) (ie : String)
      (cl cty dist port : Option (List String)) (s : String)
      (f : QueryReq → ApiResponse), s ≠ "" →
      ∀ e ∈ (make_call base P sy ey ie cl cty dist port (some s) f).issued,
        ∃ c, c ∈ s.data ∧ pyGet e.2.params "STATE" = some (String.mk [c]) := by
    intro base P sy ey ie cl cty dist port s f hs e he
    rw [make_call_issued] at he
    obtain ⟨c, hc, P', q, hq, rfl⟩ := mem_codesPlan he
    have hcomp := (mem_parameter_sets_components hq).2.2.2.2
    simp only [stateAxis, if_neg hs, List.mem_map] at hcomp
    obtain ⟨ch, hch, hqs⟩ := hcomp
    refine ⟨ch, hch, ?_⟩
    rw [planEntry_params, ← hqs]
    exact pyGet_temp_params_state _ _ _ _ _ _ (singletonStr_ne_empty ch)
  refine ⟨h1, ?_, ?_⟩
  · intro base P sy ey ie cl cty dist port s f hlen e he
    have hs : s ≠ "" := by
      intro h0
      rw [h0] at hlen
      simp at hlen
    obtain ⟨c, hc, hv⟩ := h1 base P sy ey ie cl cty dist port s f hs e he
    rw [hv]
    intro heq
    have heq2 := Option.some.inj heq
    have hlen1 : s.length = 1 := by rw [← heq2]; rfl
    omega
  · intro f
    rw [make_call_issued]
    decide

theorem make_call_state_iterates_characters_witness :
    ∃ c, c ∈ "TX".data ∧
      pyGet (planEntry "https://api.census.gov/data/timeseries/intltrade/imports/statehs"
        none (determine_base_params "imp_st")
        (2020, none, none, none, some "T")).2.params "STATE"
        = some (String.mk [c]) := by
  exact make_call_state_iterates_characters.1
    "https://api.census.gov/data/timeseries/intltrade/imports/statehs"
    (determine_base_params "imp_st") 2020 2021 "imports"
    none none none none "TX" (fun _ => ⟨200, []⟩) (by decide) _ (by decide)




/-! ## Year entry (`valid_year_input`, trade_api_functions.py lines
734-748, and the year section of `main`, Census_API_Program.py lines
81-89) -/

/-- Python `year.isdigit() and len(year) == 4` (line 746). -/
def isValidYearStr (y : String) : Bool :=
  y.data.all Char.isDigit && y.length == 4

/-- Embedding of `valid_year_input` (lines 734-748) over the stream of
user inputs: skip entries until the first valid 4-digit year and
return it with the remaining inputs. -/
def valid_year_input : List String → Option (String × List String)
  | [] => none
  | y :: rest => if isValidYearStr y then some (y, rest) else valid_year_input rest

/-- A year variable of `main`: an `int` after the initial entry
(lines 82-83), but the re-prompt loop of lines 86-89 stores the raw
strings returned by `valid_year_input`. -/
inductive YVal where
  | int (n : Nat)
  | str (s : String)
deriving DecidableEq, Repr

/-- Python `int(x)` on a decimal-digit string, as used in the loop
condition of line 86 (identity on values that are already ints). -/
def YVal.toInt : YVal → Nat
  | .int n => n
  | .str s => s.data.foldl (fun acc c => acc * 10 + (c.toNat - 48)) 0

/-- The `while int(start_year) > int(end_year)` re-prompt loop of
`main` (lines 86-89), fuelled by the length of the remaining input
stream (each iteration consumes at least two inputs). -/
def year_loop : Nat → YVal → YVal → List String → Option (YVal × YVal × List String)
  | 0, _, _, _ => none
  | fuel + 1, s, e, inputs =>
    if s.toInt > e.toInt then
      match valid_year_input inputs with
      | none => none
      | some (sy, rest) =>
        match valid_year_input rest with
        | none => none
        | some (ey, rest2) => year_loop fuel (.str sy) (.str ey) rest2
    else
      some (s, e, inputs)

/-- The year-entry section of `main` (lines 82-89): read the start
year as an int, read the end year as an int plus 1, then run the
re-prompt loop.  The returned pair is what `main` later passes to
`make_call` as `start_year`, `end_year`. -/
def year_entry (inputs : List String) : Option (YVal × YVal × List String) :=
  match valid_year_input inputs with
  | none => none
  | some (sy, rest) =>
    match valid_year_input rest with
    | none => none
    | some (ey, rest2) =>
      year_loop (rest2.length + 1) (.int ((YVal.str sy).toInt))
        (.int ((YVal.str ey).toInt + 1)) rest2

/-- C6: year entry does not maintain `startYear ≤ endYear`.  The input
"9" is rejected and "2020" accepted as the claim states, but entering
start year 2021 and end year 2020 is accepted with no re-prompt (the
loop compares the start against the entered end year plus 1), leaving
`startYear > endYear` in violation of the claimed invariant. -/
theorem year_entry_accepts_start_after_end :
    valid_year_input ["9", "2020"] = some ("2020", [])
    ∧ year_entry ["2021", "2020"] = some (YVal.int 2021, YVal.int 2021, [])
    ∧ ¬ (2021 ≤ 2020) := by
  decide

/-! ## Cleaning granularity filter (`clean_data`,
trade_api_functions.py lines 883-889) -/

/-- Pandas `series.str.len().max()` (line 888): the maximum of a list
of lengths, `none` for an empty column. -/
def seriesMax : List Nat → Option Nat
  | [] => none
  | n :: rest =>
    match seriesMax rest with
    | none => some n
    | some m => some (Nat.max n m)

/-- The final granularity filter of `clean_data` (lines 883-889),
applied to the table produced by the preceding cleaning steps: a row
is its commodity-code string paired with the rest of its fields, and
only rows whose code length equals the maximum length observed in the
commodity column are kept. -/
def clean_data_granularity {α : Type} (rows : List (String × α)) : List (String × α) :=
  match seriesMax (rows.map (fun r => r.1.length)) with
  | none => []
  | some m => rows.filter (fun r => r.1.length = m)

theorem seriesMax_isSome (x : Nat) (xs : List Nat) :
    ∃ m, seriesMax (x :: xs) = some m := by
  cases h : seriesMax xs <;> simp [seriesMax, h]

theorem seriesMax_spec (l : List Nat) (m : Nat) (h : seriesMax l = some m) :
    m ∈ l ∧ ∀ n ∈ l, n ≤ m := by
  induction l generalizing m with
  | nil => simp [seriesMax] at h
  | cons a t ih =>
    cases ht : seriesMax t with
    | none =>
      have hnil : t = [] := by
        cases t with
        | nil => rfl
        | cons b t2 =>
          obtain ⟨m2, hm2⟩ := seriesMax_isSome b t2
          rw [hm2] at ht
          cases ht
      subst hnil
      simp only [seriesMax] at h
      injection h with h
      subst h
      simp
    | some m2 =>
      simp only [seriesMax, ht] at h
      injection h with h
      subst h
      obtain ⟨hmem, hle⟩ := ih m2 ht
      constructor
      · show a ⊔ m2 ∈ a :: t
        rcases max_choice a m2 with hmx | hmx
        · rw [hmx]
          exact List.mem_cons_self _ _
        · rw [hmx]
          exact List.mem_cons_of_mem _ hmem
      · intro n hn
        rcases List.mem_cons.mp hn with rfl | hn
        · exact Nat.le_max_left _ _
        · exact Nat.le_trans (hle n hn) (Nat.le_max_right _ _)

/-- C7: after the preceding cleaning steps, the granularity filter of
`clean_data` retains exactly the rows whose commodity-code length
equals the maximum length observed in the column; in particular codes
["8501", "850110", "850120"] keep only the two 6-digit rows. -/
theorem clean_data_granularity_spec :
    (∀ (α : Type) (rows : List (String × α)) (r : String × α),
      r ∈ clean_data_granularity rows
        ↔ r ∈ rows ∧ ∀ r2 ∈ rows, r2.1.length ≤ r.1.length)
    ∧ clean_data_granularity [("8501", 0), ("850110", 1), ("850120", 2)]
      = [("850110", 1), ("850120", 2)] := by
  constructor
  · intro α rows r
    constructor
    · intro h
      unfold clean_data_granularity at h
      cases hm : seriesMax (rows.map (fun r => r.1.length)) with
      | none =>
        rw [hm] at h
        simp at h
      | some m =>
        rw [hm] at h
        have hf := List.mem_filter.mp h
        have hspec := seriesMax_spec _ m hm
        refine ⟨hf.1, ?_⟩
        intro r2 hr2
        have hle := hspec.2 _ (List.mem_map_of_mem (fun r => r.1.length) hr2)
        have heq : r.1.length = m := of_decide_eq_true hf.2
        rw [heq]
        exact hle
    · intro hpair
      obtain ⟨hr, hmax⟩ := hpair
      unfold clean_data_granularity
      cases hm : seriesMax (rows.map (fun r => r.1.length)) with
      | none =>
        exfalso
        cases rows with
        | nil => exact absurd hr (List.not_mem_nil r)
        | cons a t =>
          obtain ⟨m2, hm2⟩ := seriesMax_isSome a.1.length (t.map (fun r => r.1.length))
          rw [List.map_cons, hm2] at hm
          cases hm
      | some m =>
        apply List.mem_filter.mpr
        refine ⟨hr, ?_⟩
        have hspec := seriesMax_spec _ m hm
        rcases List.mem_map.mp hspec.1 with ⟨r2, hr2, hlen⟩
        have h1 : r.1.length ≤ m := hspec.2 _ (List.mem_map_of_mem (fun r => r.1.length) hr)
        have h2 : m ≤ r.1.length := hlen ▸ hmax r2 hr2
        simp [Nat.le_antisymm h1 h2]
  · decide

theorem clean_data_granularity_spec_witness :
    ("850110", 1) ∈ clean_data_granularity
      [("8501", (0 : Nat)), ("850110", 1), ("850120", 2)] := by
  exact (clean_data_granularity_spec.1 Nat _ _).mpr ⟨by decide, by decide⟩




/-! ## Code-format validation (`validate_code_format`,
trade_api_functions.py lines 482-493) -/

/-- Syntax of the regular expressions used by `validate_code_format`:
character classes, literals, `?`-optionals, concatenation, alternation
and the `$` end anchor. -/
inductive Pat where
  | eps
  | cls (f : Char → Bool)
  | lit (c : Char)
  | opt (p : Pat)
  | seq (p q : Pat)
  | alt (p q : Pat)
  | eos

/-- Matching semantics of a pattern against a character list: the
possible remainders after the pattern has consumed a prefix. -/
def pmatch : Pat → List Char → List (List Char)
  | .eps, s => [s]
  | .cls _, [] => []
  | .cls f, c :: rest => if f c then [rest] else []
  | .lit _, [] => []
  | .lit c0, c :: rest => if c = c0 then [rest] else []
  | .opt p, s => pmatch p s ++ [s]
  | .seq p q, s => (pmatch p s).flatMap (pmatch q)
  | .alt p q, s => pmatch p s ++ pmatch q s
  | .eos, [] => [[]]
  | .eos, _ :: _ => []

/-- Python `re.match(pattern, s)` truthiness: the pattern matches at
the start of the string; the tail is unconstrained unless the pattern
ends in `$`.  (`\d` is modelled as the decimal digits.) -/
def reMatch (p : Pat) (s : String) : Bool := !(pmatch p s.data).isEmpty

/-- `\d{n}`. -/
def digits : Nat → Pat
  | 0 => .eps
  | n + 1 => .seq (.cls Char.isDigit) (digits n)

/-- The hs regex `^(\d{2}|\d{4}|\d{6})\*?$|\d{10}$` of line 486. -/
def hs_pattern : Pat :=
  .alt (.seq (.alt (digits 2) (.alt (digits 4) (digits 6)))
         (.seq (.opt (.lit '*')) .eos))
       (.seq (digits 10) .eos)

/-- The port regex `^(\d{2}|\d{4})\*?$|\d{6}` of line 487 — note the
missing `$` after `\d{6}`. -/
def port_pattern : Pat :=
  .alt (.seq (.alt (digits 2) (digits 4)) (.seq (.opt (.lit '*')) .eos))
       (digits 6)

/-- Embedding of `validate_code_format` (lines 482-493). -/
def validate_code_format (code_list : List String) (endpoint : String) : Bool :=
  if endpoint = "hs" then code_list.all (fun code => reMatch hs_pattern code)
  else code_list.all (fun code => reMatch port_pattern code)

/-- A string of decimal digits. -/
def digitsOnly (l : List Char) : Bool := l.all Char.isDigit

/-- Shape from the spec's words: a `d`-digit string optionally
followed by a single trailing `*`. -/
def optStarShape (d : Nat) (l : List Char) : Bool :=
  (l.length == d && digitsOnly l)
  || (l.length == d + 1 && digitsOnly (l.take d) && l.drop d == ['*'])

/-- The code shape the claim states for the hs endpoint: a 2-, 4- or
6-digit string with optional trailing `*`, or exactly 10 digits. -/
def spec_hs_code_shape (c : String) : Bool :=
  optStarShape 2 c.data || optStarShape 4 c.data || optStarShape 6 c.data
  || (c.data.length == 10 && digitsOnly c.data)

/-- The code shape the claim states for the other endpoints: a 2- or
4-digit string with optional trailing `*`, or exactly 6 digits. -/
def spec_port_code_shape (c : String) : Bool :=
  optStarShape 2 c.data || optStarShape 4 c.data
  || (c.data.length == 6 && digitsOnly c.data)

theorem pmatch_digits (n : Nat) (s : List Char) :
    pmatch (digits n) s
      = if n ≤ s.length ∧ (s.take n).all Char.isDigit = true
        then [s.drop n] else [] := by
  induction n generalizing s with
  | zero => simp [digits, pmatch]
  | succ n ih =>
    cases s with
    | nil =>
      rw [digits]
      simp [pmatch]
    | cons c rest =>
      rw [digits]
      rw [show pmatch (.seq (.cls Char.isDigit) (digits n)) (c :: rest)
          = ((if Char.isDigit c then [rest] else []).flatMap (pmatch (digits n)))
          from rfl]
      by_cases hc : Char.isDigit c = true
      · rw [if_pos hc]
        simp only [List.flatMap_cons, List.flatMap_nil, List.append_nil, ih]
        by_cases hcond : n ≤ rest.length ∧ (rest.take n).all Char.isDigit = true
        · rw [if_pos hcond, if_pos ?_, List.drop_succ_cons]
          constructor
          · simp only [List.length_cons]
            omega
          · rw [List.take_succ_cons, List.all_cons, hc, hcond.2]
            rfl
        · rw [if_neg hcond, if_neg ?_]
          rintro ⟨h1, h2⟩
          apply hcond
          rw [List.take_succ_cons, List.all_cons] at h2
          refine ⟨?_, (Bool.and_eq_true _ _ ▸ h2).2⟩
          simp only [List.length_cons] at h1
          omega
      · rw [if_neg hc]
        simp only [List.flatMap_nil]
        rw [if_neg ?_]
        rintro ⟨h1, h2⟩
        rw [List.take_succ_cons, List.all_cons] at h2
        exact absurd (Bool.and_eq_true _ _ ▸ h2).1 hc

theorem pmatch_opt_star_eos (r : List Char) :
    pmatch (.seq (.opt (.lit '*')) .eos) r
      = if r = [] ∨ r = ['*'] then [[]] else [] := by
  match r with
  | [] => rfl
  | c :: rest =>
    by_cases hc : c = '*'
    · subst hc
      cases rest with
      | nil => rfl
      | cons c2 r2 =>
        rw [show pmatch (.seq (.opt (.lit '*')) .eos) ('*' :: c2 :: r2)
            = ([c2 :: r2] ++ ['*' :: c2 :: r2]).flatMap (pmatch .eos) from rfl]
        rw [if_neg (by simp)]
        rfl
    · rw [show pmatch (.seq (.opt (.lit '*')) .eos) (c :: rest)
          = ((if c = '*' then [rest] else []) ++ [c :: rest]).flatMap (pmatch .eos)
          from rfl]
      rw [if_neg hc, if_neg (by simp [hc])]
      rfl

theorem pmatch_seq_eq (p q : Pat) (s : List Char) :
    pmatch (.seq p q) s = (pmatch p s).flatMap (pmatch q) := rfl

theorem pmatch_alt_eq (p q : Pat) (s : List Char) :
    pmatch (.alt p q) s = pmatch p s ++ pmatch q s := rfl

theorem pmatch_group_tail (d : Nat) (s : List Char) :
    pmatch (.seq (digits d) (.seq (.opt (.lit '*')) .eos)) s ≠ []
      ↔ d ≤ s.length ∧ (s.take d).all Char.isDigit = true
        ∧ (s.drop d = [] ∨ s.drop d = ['*']) := by
  rw [pmatch_seq_eq, pmatch_digits]
  by_cases hcond : d ≤ s.length ∧ (s.take d).all Char.isDigit = true
  · rw [if_pos hcond]
    simp only [List.flatMap_cons, List.flatMap_nil, List.append_nil,
      pmatch_opt_star_eos]
    by_cases hr : s.drop d = [] ∨ s.drop d = ['*']
    · rw [if_pos hr]
      constructor
      · intro _
        exact ⟨hcond.1, hcond.2, hr⟩
      · intro _
        simp
    · rw [if_neg hr]
      constructor
      · intro h
        exact absurd rfl h
      · rintro ⟨_, _, hr2⟩
        exact (hr hr2).elim
  · rw [if_neg hcond]
    constructor
    · intro h
      exact absurd rfl h
    · rintro ⟨h1, h2, _⟩
      exact (hcond ⟨h1, h2⟩).elim

theorem optStarShape_iff (d : Nat) (l : List Char) :
    optStarShape d l = true
      ↔ d ≤ l.length ∧ (l.take d).all Char.isDigit = true
        ∧ (l.drop d = [] ∨ l.drop d = ['*']) := by
  unfold optStarShape digitsOnly
  rw [Bool.or_eq_true]
  constructor
  · intro h
    rcases h with h | h
    · rw [Bool.and_eq_true, beq_iff_eq] at h
      obtain ⟨hlen, hdig⟩ := h
      refine ⟨by omega, ?_, Or.inl ?_⟩
      · rw [List.take_of_length_le (by omega)]
        exact hdig
      · rw [List.drop_eq_nil_iff]
        omega
    · rw [Bool.and_eq_true, Bool.and_eq_true, beq_iff_eq, beq_iff_eq] at h
      obtain ⟨⟨hlen, hdig⟩, hdrop⟩ := h
      exact ⟨by omega, hdig, Or.inr hdrop⟩
  · rintro ⟨hle, hdig, hrest | hrest⟩
    · have hlen : l.length = d := by
        rw [List.drop_eq_nil_iff] at hrest
        omega
      left
      rw [Bool.and_eq_true, beq_iff_eq]
      refine ⟨hlen, ?_⟩
      rw [← hlen, List.take_length] at hdig
      exact hdig
    · have hlen : l.length = d + 1 := by
        have h2 := congrArg List.length hrest
        rw [List.length_drop] at h2
        simp only [List.length_singleton] at h2
        omega
      right
      rw [Bool.and_eq_true, Bool.and_eq_true, beq_iff_eq, beq_iff_eq]
      exact ⟨⟨hlen, hdig⟩, hrest⟩

theorem pmatch_digits_eos (d : Nat) (s : List Char) :
    pmatch (.seq (digits d) .eos) s ≠ []
      ↔ s.length = d ∧ s.all Char.isDigit = true := by
  rw [pmatch_seq_eq, pmatch_digits]
  by_cases hcond : d ≤ s.length ∧ (s.take d).all Char.isDigit = true
  · rw [if_pos hcond]
    simp only [List.flatMap_cons, List.flatMap_nil, List.append_nil]
    cases hd : s.drop d with
    | nil =>
      have hlen : s.length = d := by
        rw [List.drop_eq_nil_iff] at hd
        omega
      rw [show pmatch Pat.eos [] = [[]] from rfl]
      constructor
      · intro _
        refine ⟨hlen, ?_⟩
        rw [← List.take_of_length_le (l := s) (i := d) (by omega)]
        exact hcond.2
      · intro _
        simp
    | cons c2 r2 =>
      rw [show pmatch Pat.eos (c2 :: r2) = [] from rfl]
      constructor
      · intro h
        exact absurd rfl h
      · rintro ⟨h1, _⟩
        have h2 := congrArg List.length hd
        rw [List.length_drop, h1] at h2
        simp at h2
  · rw [if_neg hcond]
    constructor
    · intro h
      exact absurd rfl h
    · rintro ⟨h1, h2⟩
      refine (hcond ⟨by omega, ?_⟩).elim
      rw [List.take_of_length_le (by omega)]
      exact h2



theorem reMatch_true_iff (p : Pat) (c : String) :
    reMatch p c = true ↔ pmatch p c.data ≠ [] := by
  unfold reMatch
  cases h : pmatch p c.data <;> simp [h]

theorem append_ne_nil {α : Type} (a b : List α) :
    a ++ b ≠ [] ↔ a ≠ [] ∨ b ≠ [] := by
  cases a <;> simp

set_option maxHeartbeats 1000000 in
theorem reMatch_hs_iff (c : String) :
    reMatch hs_pattern c = true ↔ spec_hs_code_shape c = true := by
  rw [reMatch_true_iff]
  unfold hs_pattern
  rw [pmatch_alt_eq]
  have hdist : pmatch (.seq (.alt (digits 2) (.alt (digits 4) (digits 6)))
        (.seq (.opt (.lit '*')) .eos)) c.data
      = pmatch (.seq (digits 2) (.seq (.opt (.lit '*')) .eos)) c.data
        ++ (pmatch (.seq (digits 4) (.seq (.opt (.lit '*')) .eos)) c.data
        ++ pmatch (.seq (digits 6) (.seq (.opt (.lit '*')) .eos)) c.data) := by
    rw [pmatch_seq_eq, pmatch_alt_eq, pmatch_alt_eq, List.flatMap_append,
      List.flatMap_append]
    rfl
  rw [hdist, append_ne_nil, append_ne_nil, append_ne_nil]
  have g2 := (pmatch_group_tail 2 c.data).trans (optStarShape_iff 2 c.data).symm
  have g4 := (pmatch_group_tail 4 c.data).trans (optStarShape_iff 4 c.data).symm
  have g6 := (pmatch_group_tail 6 c.data).trans (optStarShape_iff 6 c.data).symm
  have g10 := pmatch_digits_eos 10 c.data
  rw [g2, g4, g6, g10]
  unfold spec_hs_code_shape digitsOnly
  rw [Bool.or_eq_true, Bool.or_eq_true, Bool.or_eq_true, Bool.and_eq_true,
    beq_iff_eq]
  tauto

theorem reMatch_port_iff (c : String) :
    reMatch port_pattern c = true
      ↔ (spec_port_code_shape c = true
          ∨ (6 ≤ c.data.length ∧ (c.data.take 6).all Char.isDigit = true)) := by
  rw [reMatch_true_iff]
  unfold port_pattern
  rw [pmatch_alt_eq]
  have hdist : pmatch (.seq (.alt (digits 2) (digits 4))
        (.seq (.opt (.lit '*')) .eos)) c.data
      = pmatch (.seq (digits 2) (.seq (.opt (.lit '*')) .eos)) c.data
        ++ pmatch (.seq (digits 4) (.seq (.opt (.lit '*')) .eos)) c.data := by
    rw [pmatch_seq_eq, pmatch_alt_eq, List.flatMap_append]
    rfl
  rw [hdist, append_ne_nil, append_ne_nil]
  have g2 := (pmatch_group_tail 2 c.data).trans (optStarShape_iff 2 c.data).symm
  have g4 := (pmatch_group_tail 4 c.data).trans (optStarShape_iff 4 c.data).symm
  have g6 : pmatch (digits 6) c.data ≠ []
      ↔ (6 ≤ c.data.length ∧ (c.data.take 6).all Char.isDigit = true) := by
    rw [pmatch_digits]
    by_cases h : 6 ≤ c.data.length ∧ (c.data.take 6).all Char.isDigit = true <;>
      simp [h]
  rw [g2, g4, g6]
  unfold spec_port_code_shape digitsOnly
  rw [Bool.or_eq_true, Bool.or_eq_true, Bool.and_eq_true, beq_iff_eq]
  constructor
  · rintro ((h | h) | h)
    · exact Or.inl (Or.inl (Or.inl h))
    · exact Or.inl (Or.inl (Or.inr h))
    · exact Or.inr h
  · rintro (((h | h) | h) | h)
    · exact Or.inl (Or.inl h)
    · exact Or.inl (Or.inr h)
    · right
      refine ⟨by omega, ?_⟩
      rw [List.take_of_length_le (by omega)]
      exact h.2
    · exact Or.inr h

/-- C8: the hs side of `validate_code_format` accepts exactly the
claimed shapes (2/4/6 digits with optional trailing `*`, or exactly
10 digits), but the port-side regex is missing the end anchor after
`\d{6}`: it accepts any string that merely starts with six digits, so
the 7-digit code "1234567" (and even "123456x") passes validation
although the claim and the function's own docstring allow only
2/4-digit codes with optional `*` or exactly 6 digits. -/
theorem validate_code_format_port_missing_anchor :
    (∀ c : String, reMatch hs_pattern c = spec_hs_code_shape c)
    ∧ (∀ c : String, reMatch port_pattern c = true
        ↔ (spec_port_code_shape c = true
            ∨ (6 ≤ c.data.length ∧ (c.data.take 6).all Char.isDigit = true)))
    ∧ validate_code_format ["1234567"] "port" = true
    ∧ spec_port_code_shape "1234567" = false
    ∧ validate_code_format ["123456x"] "port" = true
    ∧ validate_code_format ["12345"] "port" = false
    ∧ validate_code_format ["123456"] "port" = true := by
  refine ⟨?_, reMatch_port_iff, by decide, by decide, by decide, by decide, by decide⟩
  intro c
  have h := reMatch_hs_iff c
  cases ha : reMatch hs_pattern c <;> cases hb : spec_hs_code_shape c <;> simp_all

theorem validate_code_format_port_missing_anchor_witness :
    reMatch port_pattern "1234567" = true := by
  exact (validate_code_format_port_missing_anchor.2.1 "1234567").mpr
    (Or.inr ⟨by decide, by decide⟩)




/-! ## Saving (`save_data`, trade_api_functions.py lines 916-975, and
its call from `main`, Census_API_Program.py lines 113-119) -/

/-- A pandas table as an ordered association of column name to the
column's string values. -/
abbrev PyTable := List (String × List String)

/-- The dynamic Python values flowing into `save_data`: `None`,
strings, DataFrames, Series and tuples. -/
inductive PyVal where
  | pynone
  | str (s : String)
  | table (t : PyTable)
  | series (vs : List String)
  | pair (a b : PyVal)
deriving DecidableEq, Repr

/-- Python subscription `v[k]` with a string key. -/
def pyGetItem : PyVal → String → Except String PyVal
  | .table t, k =>
    match t.find? (fun col => col.1 = k) with
    | some col => .ok (.series col.2)
    | none => .error ("KeyError: " ++ k)
  | .pair _ _, _ => .error "TypeError: tuple indices must be integers or slices, not str"
  | .str _, _ => .error "TypeError: string indices must be integers"
  | .series _, k => .error ("KeyError: " ++ k)
  | .pynone, _ => .error "TypeError: 'NoneType' object is not subscriptable"

/-- Python subscript assignment `v[k] = w` (column assignment on a
DataFrame, a `TypeError` on strings, tuples and `None`). -/
def pySetItem : PyVal → String → PyVal → Except String PyVal
  | .table t, k, .series vs =>
    .ok (.table (if t.any (fun col => col.1 = k)
      then t.map (fun col => if col.1 = k then (k, vs) else col)
      else t ++ [(k, vs)]))
  | .table _, _, _ => .error "ValueError: cannot set a column from this value"
  | .str _, _, _ => .error "TypeError: 'str' object does not support item assignment"
  | .pair _ _, _, _ => .error "TypeError: 'tuple' object does not support item assignment"
  | .series _, _, _ => .error "TypeError: unsupported series assignment"
  | .pynone, _, _ => .error "TypeError: 'NoneType' object does not support item assignment"

/-- `series.apply(lambda x: x.split('-')[i])` (lines 942-943 and
963-964): split every entry at '-' and keep part `i`, raising
`IndexError` when the part is missing. -/
def seriesSplitPart (v : PyVal) (i : Nat) : Except String PyVal :=
  match v with
  | .series vs =>
    match vs.mapM (fun s =>
        match (splitChar '-' s.data).get? i with
        | some part => Except.ok (String.mk part)
        | none => Except.error "IndexError: list index out of range") with
    | .ok ws => .ok (.series ws)
    | .error e => .error e
  | _ => .error "TypeError: split applied to a non-series value"

/-- `v.drop(columns=['time'], axis=1)` (lines 945 and 966). -/
def pyDropTime : PyVal → Except String PyVal
  | .table t =>
    if t.any (fun col => col.1 = "time")
    then .ok (.table (t.filter (fun col => col.1 ≠ "time")))
    else .error "KeyError: ['time'] not found in axis"
  | .str _ => .error "AttributeError: 'str' object has no attribute 'drop'"
  | .pair _ _ => .error "AttributeError: 'tuple' object has no attribute 'drop'"
  | .series _ => .error "AttributeError: 'Series' object has no attribute 'drop' columns"
  | .pynone => .error "AttributeError: 'NoneType' object has no attribute 'drop'"

/-- Order-preserving deduplication underlying `series.unique()`. -/
def uniqueAux (seen : List String) : List String → List String
  | [] => []
  | v :: rest =>
    if v ∈ seen then uniqueAux seen rest else v :: uniqueAux (v :: seen) rest

/-- `series.unique()` (lines 947, 955 and 968). -/
def seriesUnique (v : PyVal) : Except String (List String) :=
  match v with
  | .series vs => .ok (uniqueAux [] vs)
  | _ => .error "AttributeError: object has no attribute 'unique'"

/-- Positional boolean-mask application. -/
def applyMask : List String → List Bool → List String
  | v :: vs, b :: bs => if b then v :: applyMask vs bs else applyMask vs bs
  | _, _ => []

/-- The row filter `tbl[maskSrc['YEAR'] == year]` (lines 949, 957 and
970): build the boolean mask from `maskSrc`'s YEAR column and keep the
matching rows of `tbl`. -/
def maskFilter (tbl maskSrc : PyVal) (year : String) : Except String PyVal := do
  let col ← pyGetItem maskSrc "YEAR"
  match tbl, col with
  | .table t, .series vs =>
    if t.all (fun c => c.2.length = vs.length) then
      Except.ok (.table (t.map (fun c =>
        (c.1, applyMask c.2 (vs.map (fun v => v = year))))))
    else
      Except.error "IndexingError: unalignable boolean Series"
  | _, _ => Except.error "TypeError: row mask applied to a non-table value"

/-- Python truthiness of the descriptor arguments (lines 927-938):
`None` and the empty string are falsy. -/
def pyTruthy : PyVal → Bool
  | .pynone => false
  | .str s => !(s == "")
  | _ => true

/-- `str()` rendering used when values are interpolated into the
f-string file names (lines 952, 960 and 973). -/
def pyStr : PyVal → String
  | .str s => s
  | .pynone => "None"
  | _ => "<object>"

/-- The descriptor concatenation of `save_data` (lines 926-938). -/
def descriptorOf (commodity cty_name name2 : PyVal) : String :=
  let d := ""
  let d := if pyTruthy commodity then d ++ pyStr commodity else d
  let d := if pyTruthy cty_name then
      (if pyTruthy commodity then d ++ "_" ++ pyStr cty_name else d ++ pyStr cty_name)
    else d
  if pyTruthy name2 then
    (if pyTruthy cty_name || pyTruthy commodity then d ++ "_" ++ pyStr name2
     else d ++ pyStr name2)
  else d

/-- One `to_csv` loop of `save_data` (lines 948-952, 956-960 and
968-973): for each year filter the rows and write one CSV; an
exception stops the loop after the files already written. -/
def year_write_loop (tbl maskSrc : PyVal) (years : List String)
    (mkPath : String → String) : List String × Option String :=
  match years with
  | [] => ([], Option.none)
  | y :: rest =>
    match maskFilter tbl maskSrc y with
    | .error e => ([], some e)
    | .ok _ =>
      match year_write_loop tbl maskSrc rest mkPath with
      | (ws, err) => (mkPath y :: ws, err)

/-- Embedding of `save_data` (lines 916-975): the result is the list
of CSV paths written and the Python exception raised, if any.  In the
cleaned branch the raw table is rebuilt from `data` (the source reads
`data['time']` and reassigns `raw_data = data.drop(columns=['time'])`,
lines 942-945), then the raw files and the cleaned files are written
year by year. -/
def save_data (data raw_data trade_type save_dir commodity cty_name name2 : PyVal)
    (cleaned : Bool) : List String × Option String :=
  let descriptor := descriptorOf commodity cty_name name2
  if cleaned then
    match (do
        let t ← pyGetItem data "time"
        let y ← seriesSplitPart t 0
        let raw1 ← pySetItem raw_data "YEAR" y
        let t2 ← pyGetItem data "time"
        let m ← seriesSplitPart t2 1
        let _ ← pySetItem raw1 "MONTH" m
        let raw3 ← pyDropTime data
        let yv ← pyGetItem raw3 "YEAR"
        let years ← seriesUnique yv
        Except.ok (raw3, years) : Except String (PyVal × List String)) with
    | .error e => ([], some e)
    | .ok (raw3, years) =>
      match year_write_loop raw3 data years
          (fun y => pyStr save_dir ++ "/" ++ descriptor ++ "_" ++ pyStr trade_type
            ++ "_" ++ y ++ "_raw.csv") with
      | (ws1, some e) => (ws1, some e)
      | (ws1, Option.none) =>
        match (do
            let dv ← pyGetItem data "YEAR"
            seriesUnique dv : Except String (List String)) with
        | .error e => (ws1, some e)
        | .ok years2 =>
          match year_write_loop data data years2
              (fun y => pyStr save_dir ++ "/" ++ descriptor ++ "_"
                ++ pyStr trade_type ++ "_" ++ y ++ "_cleaned.csv") with
          | (ws2, err2) => (ws1 ++ ws2, err2)
  else
    match (do
        let t ← pyGetItem data "time"
        let y ← seriesSplitPart t 0
        let d1 ← pySetItem data "YEAR" y
        let t2 ← pyGetItem d1 "time"
        let m ← seriesSplitPart t2 1
        let d2 ← pySetItem d1 "MONTH" m
        let d3 ← pyDropTime d2
        let yv ← pyGetItem d3 "YEAR"
        let years ← seriesUnique yv
        Except.ok (d3, years) : Except String (PyVal × List String)) with
    | .error e => ([], some e)
    | .ok (d3, years) =>
      year_write_loop d3 d3 years
        (fun y => pyStr save_dir ++ "/" ++ descriptor ++ "_" ++ pyStr trade_type
          ++ "_" ++ y ++ "_raw.csv")

/-- The tuple `(data, raw_data)` returned by `clean_data` (line 891). -/
def clean_data_result (cleansed raw : PyTable) : PyVal :=
  .pair (.table cleansed) (.table raw)

/-- The cleaned-path save call of `main` (Census_API_Program.py line
116): `save_data(cleaned_data, trade_type, save_dir, commodity,
cleaned=True)` passes only four positional arguments, so the
trade-type tag binds to `raw_data`, the save directory to
`trade_type`, the commodity descriptor to `save_dir`, and
`save_data`'s own `commodity`, `cty_name` and `name` keep their `None`
defaults. -/
def main_save_cleaned (cleaned_data : PyVal)
    (trade_type save_dir commodity : String) : List String × Option String :=
  save_data cleaned_data (.str trade_type) (.str save_dir) (.str commodity)
    .pynone .pynone .pynone true

/-- C9: whenever the user chooses to clean before saving, the save
step raises a TypeError before writing any CSV file: `main` passes the
(cleanedTable, rawTable) pair as `save_data`'s first positional
argument, shifting the remaining arguments by one, and the cleaned
branch's first operation subscripts that tuple with the string
'time'. -/
theorem main_cleaned_save_fails_before_write
    (cleansed raw : PyTable) (trade_type save_dir commodity : String) :
    main_save_cleaned (clean_data_result cleansed raw) trade_type save_dir commodity
      = ([], some "TypeError: tuple indices must be integers or slices, not str") := by
  rfl


end CensusTrade
